import Mathlib

/-!
Verification of the multi-source data acquisition layer of the GEO_EARTH
backend (`backend/app/services/data_sources.py`, `backend/app/api/data.py`,
`backend/app/services/data_ingest.py`) against its natural-language
specification.

The Python service is shallowly embedded: network I/O is modelled by an
environment value describing what the upstream HTTP exchange produced
(either an exception message, mirroring Python's `except Exception as e`
handlers, or the parsed response body), and each service method becomes a
pure Lean function from the environment, the current wall-clock time and
the service state to a result record and an updated state.  Python dicts
with optional keys become records with `Option` fields; reading a key with
`dict.get(k, default)` becomes `Option.getD`.  Wall-clock time is a
rational number of minutes; `datetime.utcnow()` becomes the explicit
`now` argument threaded through each call.
-/

namespace GeoEarth

/-- `lowerStr s` models Python's `str.lower()` (kernel-reducible version). -/
def lowerStr (s : String) : String := String.mk (s.data.map Char.toLower)

/-- `upperStr s` models Python's `str.upper()` (kernel-reducible version). -/
def upperStr (s : String) : String := String.mk (s.data.map Char.toUpper)

/-- Helper for substring search over character lists. -/
def isSubList (pat : List Char) : List Char → Bool
  | [] => pat.isEmpty
  | c :: cs => pat.isPrefixOf (c :: cs) || isSubList pat cs

/-- `containsSub s pat` models Python's `pat in s` on strings. -/
def containsSub (s pat : String) : Bool := isSubList pat.data s.data

/-- Models `s.split(',')[0]`: the characters before the first comma. -/
def beforeComma (s : String) : String :=
  String.mk (s.data.takeWhile (fun c => c != ','))

/-- One normalized seismic reading, the canonical record built by the USGS
and EMSC adapters (`events.append({...})` in `data_sources.py`).
Timestamps are numeric (epoch-based), standing for the ISO strings the
Python code stores. -/
structure SeismicEvent where
  id : String
  magnitude : Rat
  latitude : Rat
  longitude : Rat
  depth_km : Rat
  timestamp : Rat
  location : String
  source : String
deriving DecidableEq

/-- The GFZ adapter's parsed table (`data = {'kp_index': [...], 'dst_index':
[...], 'ap_index': [...]}`). -/
structure GfzData where
  kp_index : List (String × Rat)
  dst_index : List (String × Rat)
  ap_index : List (String × Rat)
deriving DecidableEq

/-- The heterogeneous `data` payloads stored by the space-weather and
geomagnetic adapters and by the merger.  `emptyList` and `emptyDict` are
the Python defaults `[]` and `{}`. -/
inductive Payload where
  | noaaMap (m : List (String × List Rat))
  | nasaRows (rows : List (List (Option Rat)))
  | gfzTable (g : GfzData)
  | emptyList
  | emptyDict
deriving DecidableEq

/-- A fetch-result dict as produced by the adapters, `check_quality` and
`merge_sources_legacy`.  Each Python dict key that is only sometimes
present becomes an `Option` field defaulting to `none` (an absent key);
`success` defaults to `false` because Python's `dict.get('success')`
yields the falsy `None` on an absent key. -/
structure FetchResult where
  success : Bool := false
  source : Option String := none
  error : Option String := none
  events : Option (List SeismicEvent) := none
  total_events : Option Nat := none
  data : Option Payload := none
  fetch_timestamp : Option Rat := none
  confidence : Option String := none
  age_hours : Option Rat := none
  quality_score : Option Rat := none
  primary_source : Option String := none
  fallback_used : Option Bool := none
  successful_endpoints : Option Nat := none
  total_endpoints : Option Nat := none
deriving DecidableEq

/-- One entry of `self.data_sources`: a source descriptor. -/
structure SourceDescriptor where
  name : String
  base_url : String
  status : String
  last_update : Option Rat
  reliability : Rat
deriving DecidableEq

/-- The static registry `self.data_sources` created in `__init__`, with its
five fixed keys. -/
structure Registry where
  usgs : SourceDescriptor
  emsc : SourceDescriptor
  noaa : SourceDescriptor
  gfz : SourceDescriptor
  nasa : SourceDescriptor
deriving DecidableEq

/-- The mutable state of `DataSourcesService`: the descriptor registry,
`self.cached_data` (a dict keyed by lower-cased source name) and
`self.last_update`. -/
structure ServiceState where
  sources : Registry
  cached_data : List (String × FetchResult)
  last_update : Option Rat
deriving DecidableEq

/-- The state built by `DataSourcesService.__init__`. -/
def initState : ServiceState :=
  { sources :=
      { usgs := { name := "USGS Earthquake Hazards Program"
                  base_url := "https://earthquake.usgs.gov/fdsnws/event/1/query"
                  status := "unknown", last_update := none, reliability := 0 }
        emsc := { name := "European-Mediterranean Seismological Centre"
                  base_url := "https://www.seismicportal.eu/fdsnws/event/1/query"
                  status := "unknown", last_update := none, reliability := 0 }
        noaa := { name := "NOAA Space Weather Prediction Center"
                  base_url := "https://services.swpc.noaa.gov/json"
                  status := "unknown", last_update := none, reliability := 0 }
        gfz := { name := "GFZ German Research Centre for Geosciences"
                 base_url := "https://isgi.unistra.fr/data_download.php"
                 status := "unknown", last_update := none, reliability := 0 }
        nasa := { name := "NASA Space Weather Database"
                  base_url := "https://omniweb.gsfc.nasa.gov/cgi/nx1.cgi"
                  status := "unknown", last_update := none, reliability := 0 } }
    cached_data := []
    last_update := none }

/-- `DataSourcesService.check_quality`: stamps a confidence level from the
age of `fetch_timestamp`.  Both Python branches of the age test store the
same `age_hours`, so the test is confined to the confidence string here;
a missing timestamp yields `'unknown'` with `age_hours = 0` (the
`fromisoformat` failure branch is unreachable because timestamps are
already numeric in this embedding). -/
def check_quality (now : Rat) (d : FetchResult) : FetchResult :=
  match d.fetch_timestamp with
  | some t =>
      let age_hours := (now - t) / 60
      { d with confidence := some (if age_hours > 24 then "low" else "high")
               age_hours := some age_hours }
  | none => { d with confidence := some "unknown", age_hours := some 0 }

/-- Coordinates of a GeoJSON feature: `coords[0]`, `coords[1]` are always
read (an absence would raise and fail the whole fetch), `coords[2]` only
when present (`if len(coords) > 2`). -/
structure UsgsCoordinates where
  longitude : Rat
  latitude : Rat
  depth : Option Rat
deriving DecidableEq

/-- One feature of the USGS GeoJSON feed, the fields the adapter reads. -/
structure UsgsFeature where
  ids : Option String
  mag : Option Rat
  time : Option Rat
  place : Option String
  coordinates : UsgsCoordinates
deriving DecidableEq

/-- The normalization of one USGS feature into a canonical record
(`events.append({...})`, `data_sources.py` lines 84-93).  The numeric
`timestamp` is `props.get('time', 0) / 1000` (epoch seconds), standing
for the ISO string `fromtimestamp(...).isoformat()`. -/
def normalizeUsgsFeature (f : UsgsFeature) : SeismicEvent :=
  { id := match f.ids with
          | some s => if s = "" then "unknown" else beforeComma s
          | none => "unknown"
    magnitude := f.mag.getD 0
    latitude := f.coordinates.latitude
    longitude := f.coordinates.longitude
    depth_km := (f.coordinates.depth).getD 0
    timestamp := (f.time.getD 0) / 1000
    location := f.place.getD "Unknown location"
    source := "USGS" }

/-- `DataSourcesService.fetch_usgs_earthquake_data`.  The environment is
the outcome of the HTTP request plus GeoJSON decoding: `.ok features`
when the request and parse succeeded, `.error e` when anything inside the
`try` block raised (network error, bad status, malformed JSON).  The
latitude/longitude/radius parameters only shape the outgoing query, which
the environment already answers, so they are not repeated here. -/
def fetch_usgs_earthquake_data (env : Except String (List UsgsFeature))
    (now : Rat) (s : ServiceState) : FetchResult × ServiceState :=
  match env with
  | .ok features =>
      let events := features.map normalizeUsgsFeature
      ({ success := true, source := some "USGS", events := some events,
         total_events := some events.length, fetch_timestamp := some now },
       { s with sources := { s.sources with usgs :=
           { s.sources.usgs with status := "active", last_update := some now,
                                 reliability := 100 } } })
  | .error e =>
      ({ success := false, source := some "USGS", error := some e,
         events := some [], total_events := some 0 },
       { s with sources := { s.sources with usgs :=
           { s.sources.usgs with status := "error", reliability := 0 } } })

/-- The EMSC error-message classification (`data_sources.py` lines
196-206). -/
def emscErrorMessage (e : String) : String :=
  if containsSub (lowerStr e) "timeout" then
    "EMSC API timeout - service may be temporarily unavailable"
  else if containsSub (lowerStr e) "connection" then
    "EMSC API connection failed - check network connectivity"
  else if containsSub (lowerStr e) "ssl" then
    "EMSC API SSL/TLS connection error"
  else if containsSub (lowerStr e) "dns" then
    "EMSC API DNS resolution failed"
  else "EMSC API Error: " ++ e

/-- `DataSourcesService.fetch_emsc_earthquake_data`.  The environment is
the outcome of the HTTP request plus QuakeML extraction: `.ok events`
carries the canonical records surviving the namespace-qualified XML
extraction (whose per-event failures are skipped by `continue` in the
source, hence already absent), `.error e` any exception from the `try`
block. -/
def fetch_emsc_earthquake_data (env : Except String (List SeismicEvent))
    (now : Rat) (s : ServiceState) : FetchResult × ServiceState :=
  match env with
  | .ok events =>
      ({ success := true, source := some "EMSC", events := some events,
         total_events := some events.length, fetch_timestamp := some now },
       { s with sources := { s.sources with emsc :=
           { s.sources.emsc with status := "active", last_update := some now,
                                 reliability := 95 } } })
  | .error e =>
      ({ success := false, source := some "EMSC", error := some (emscErrorMessage e),
         events := some [], total_events := some 0 },
       { s with sources := { s.sources with emsc :=
           { s.sources.emsc with status := "error", reliability := 0 } } })

/-- The upstream behaviour seen by `fetch_noaa_space_weather_data`: an
optional exception raised outside the per-endpoint loop (e.g. client
construction), and one outcome per JSON endpoint — `.ok body` for a
decoded body (possibly empty, which Python's truthiness test discards),
`.error e` for an exception caught inside the loop. -/
structure NoaaEnv where
  outer_exn : Option String
  solar_wind : Except String (List Rat)
  geomagnetic : Except String (List Rat)
  solar_flux : Except String (List Rat)

/-- One iteration of the NOAA endpoint loop: a non-empty decoded body is
stored and counted; an empty body is neither stored nor counted; an
exception stores `[]` under the endpoint's key without counting it. -/
def noaaStep (acc : List (String × List Rat) × Nat)
    (kv : String × Except String (List Rat)) : List (String × List Rat) × Nat :=
  match kv.2 with
  | .ok d => if d.isEmpty then acc else (acc.1 ++ [(kv.1, d)], acc.2 + 1)
  | .error _ => (acc.1 ++ [(kv.1, [])], acc.2)

/-- The NOAA error-message classification (`data_sources.py` lines
262-267). -/
def noaaErrorMessage (e : String) : String :=
  if containsSub e "404" then "NOAA API endpoints not found - service may be down"
  else if containsSub (lowerStr e) "timeout" then
    "NOAA API timeout - service may be temporarily unavailable"
  else if containsSub (lowerStr e) "connection" then
    "NOAA API connection failed - check network connectivity"
  else e

/-- `DataSourcesService.fetch_noaa_space_weather_data`: three sub-requests,
success proportional to how many returned non-empty data
(`reliability = (successful / 3) * 90`, `success = successful > 0`), the
result stamped by `check_quality`. -/
def fetch_noaa_space_weather_data (env : NoaaEnv) (now : Rat)
    (s : ServiceState) : FetchResult × ServiceState :=
  match env.outer_exn with
  | some e =>
      ({ success := false, source := some "NOAA", error := some (noaaErrorMessage e),
         data := some .emptyDict, confidence := some "none" },
       { s with sources := { s.sources with noaa :=
           { s.sources.noaa with status := "error", reliability := 0 } } })
  | none =>
      let endpoints := [("solar_wind", env.solar_wind),
                        ("geomagnetic", env.geomagnetic),
                        ("solar_flux", env.solar_flux)]
      let folded := endpoints.foldl noaaStep ([], 0)
      let k := folded.2
      let reliability := ((k : Rat) / 3) * 90
      let result : FetchResult :=
        { success := decide (0 < k), source := some "NOAA",
          data := some (.noaaMap folded.1), successful_endpoints := some k,
          total_endpoints := some 3, fetch_timestamp := some now }
      (check_quality now result,
       { s with sources := { s.sources with noaa :=
           { s.sources.noaa with
               status := if 0 < k then "active" else "error",
               last_update := some now, reliability := reliability } } })

/-- `DataSourcesService.fetch_gfz_geomagnetic_data`'s table construction
(`data_sources.py` lines 286-312): each successfully parsed row
contributes its Kp value to `kp_index` and its Dst value to `dst_index`;
`ap_index` is never filled. -/
def gfzBuildData (rows : List (String × Rat × Rat)) : GfzData :=
  { kp_index := rows.map (fun r => (r.1, r.2.1))
    dst_index := rows.map (fun r => (r.1, r.2.2))
    ap_index := [] }

/-- `DataSourcesService.fetch_gfz_geomagnetic_data`.  The environment is
the outcome of the HTTP request plus HTML-table scraping: `.ok rows`
carries the `(date, kp, dst)` triples of the rows that parsed (rows that
fail to parse are skipped by `continue` in the source, hence already
absent), `.error e` any exception from the `try` block. -/
def fetch_gfz_geomagnetic_data (env : Except String (List (String × Rat × Rat)))
    (now : Rat) (s : ServiceState) : FetchResult × ServiceState :=
  match env with
  | .ok rows =>
      ({ success := true, source := some "GFZ",
         data := some (.gfzTable (gfzBuildData rows)), fetch_timestamp := some now },
       { s with sources := { s.sources with gfz :=
           { s.sources.gfz with status := "active", last_update := some now,
                                reliability := 85 } } })
  | .error e =>
      ({ success := false, source := some "GFZ", error := some e,
         data := some .emptyDict },
       { s with sources := { s.sources with gfz :=
           { s.sources.gfz with status := "error", reliability := 0 } } })

/-- One response of the NASA OMNIWeb endpoint: whether the body contains
the `NO SPACECRAFT SELECTED` semantic-failure marker, and the data rows
parsed from the fixed-width body (sentinel values such as `999.9` already
translated to `none`; rows failing to parse are skipped by `continue` in
the source, hence already absent). -/
structure NasaResponse where
  no_spacecraft : Bool
  rows : List (List (Option Rat))

/-- The upstream behaviour seen by `fetch_nasa_space_weather_data`: the
outcome of the first request (spacecraft `omni2`) and of the retry with
the alternate spacecraft `wind`, which is only issued when the first body
carries the semantic-failure marker. -/
structure NasaEnv where
  resp1 : Except String NasaResponse
  resp2 : Except String NasaResponse

/-- The NASA error-message classification (`data_sources.py` lines
429-435). -/
def nasaErrorMessage (e : String) : String :=
  if containsSub (upperStr e) "NO SPACECRAFT SELECTED" then
    "NASA: NO SPACECRAFT SELECTED - spacecraft data unavailable"
  else if containsSub (lowerStr e) "timeout" then
    "NASA API timeout - service may be temporarily unavailable"
  else if containsSub (lowerStr e) "connection" then
    "NASA API connection failed - check network connectivity"
  else e

/-- The failure branch of `fetch_nasa_space_weather_data` (`except` block):
classify the message, mark the NASA descriptor `error` with reliability
`0`, and return a failure record. -/
def nasaFailure (e : String) (s : ServiceState) : FetchResult × ServiceState :=
  ({ success := false, source := some "NASA", error := some (nasaErrorMessage e),
     data := some .emptyList, confidence := some "none" },
   { s with sources := { s.sources with nasa :=
       { s.sources.nasa with status := "error", reliability := 0 } } })

/-- The success tail of `fetch_nasa_space_weather_data`: mark the NASA
descriptor `active` with reliability `88` and return the parsed rows
stamped by `check_quality`. -/
def nasaSuccess (rows : List (List (Option Rat))) (now : Rat)
    (s : ServiceState) : FetchResult × ServiceState :=
  (check_quality now
     { success := true, source := some "NASA", data := some (.nasaRows rows),
       fetch_timestamp := some now },
   { s with sources := { s.sources with nasa :=
       { s.sources.nasa with status := "active", last_update := some now,
                             reliability := 88 } } })

/-- `DataSourcesService.fetch_nasa_space_weather_data`: on the semantic
failure marker in the first response, one retry with the alternate
spacecraft; a marker in both responses raises
`NASA: NO SPACECRAFT SELECTED for both omni2 and wind`, which the
`except` block then classifies. -/
def fetch_nasa_space_weather_data (env : NasaEnv) (now : Rat)
    (s : ServiceState) : FetchResult × ServiceState :=
  match env.resp1 with
  | .error e => nasaFailure e s
  | .ok r1 =>
      if r1.no_spacecraft then
        match env.resp2 with
        | .error e => nasaFailure e s
        | .ok r2 =>
            if r2.no_spacecraft then
              nasaFailure "NASA: NO SPACECRAFT SELECTED for both omni2 and wind" s
            else nasaSuccess r2.rows now s
      else nasaSuccess r1.rows now s

/-- `DataSourcesService.merge_sources_legacy`: the four-step NASA/NOAA
precedence.  The `except` branch of the source is unreachable here: the
only raising operation is the endpoint-ratio division, whose
zero-divisor case Lean evaluates to `0`, matching the `0.0` quality
score the Python dict is left with when that division raises. -/
def merge_sources_legacy (nasa_result noaa_result : FetchResult) : FetchResult :=
  let merged : FetchResult :=
    { success := false, primary_source := none, fallback_used := some false,
      data := some .emptyDict, confidence := some "none", quality_score := some 0 }
  if nasa_result.success && (nasa_result.confidence == some "high") then
    { merged with
      success := true
      primary_source := some "NASA"
      data := some (nasa_result.data.getD .emptyList)
      confidence := some (nasa_result.confidence.getD "unknown")
      quality_score := some (9/10) }
  else if noaa_result.success then
    let endpoint_ratio : Rat :=
      ((noaa_result.successful_endpoints.getD 0 : Nat) : Rat) /
        ((noaa_result.total_endpoints.getD 1 : Nat) : Rat)
    { merged with
      success := true
      primary_source := some "NOAA"
      fallback_used := some true
      data := some (noaa_result.data.getD .emptyDict)
      confidence := some (noaa_result.confidence.getD "unknown")
      quality_score := some (if noaa_result.confidence == some "high" then
        (8/10) * endpoint_ratio else (6/10) * endpoint_ratio) }
  else if nasa_result.success then
    { merged with
      success := true
      primary_source := some "NASA"
      fallback_used := some false
      data := some (nasa_result.data.getD .emptyList)
      confidence := some (nasa_result.confidence.getD "unknown")
      quality_score := some (4/10) }
  else
    { merged with
      error := some ("NASA: " ++ nasa_result.error.getD "Unknown error" ++
        ", NOAA: " ++ noaa_result.error.getD "Unknown error")
      quality_score := some 0 }

/-- The upstream behaviour seen by `fetch_space_weather_with_fallback`:
one environment per provider. -/
structure SpaceWeatherEnv where
  nasa : NasaEnv
  noaa : NoaaEnv

/-- `DataSourcesService.fetch_space_weather_with_fallback`: both provider
fetches (the source gathers them concurrently; they touch disjoint
registry entries, so sequential composition is equivalent), then the
legacy merger.  The `isinstance(_, Exception)` rebindings of the source
are unreachable because the embedded fetches are total. -/
def fetch_space_weather_with_fallback (env : SpaceWeatherEnv) (now : Rat)
    (s : ServiceState) : FetchResult × ServiceState :=
  let p1 := fetch_nasa_space_weather_data env.nasa now s
  let p2 := fetch_noaa_space_weather_data env.noaa now p1.2
  (merge_sources_legacy p1.1 p2.1, p2.2)

/-- One `quality_scores['space_weather']` entry built by
`update_all_sources`. -/
structure QualityEntry where
  quality_score : Rat
  confidence : String
  primary_source : Option String
  fallback_used : Bool
deriving DecidableEq

/-- The loop state of the result-processing loop in `update_all_sources`:
the `data` dict under construction, the `errors` list, the
`quality_scores` dict and the (mutated) descriptor registry. -/
structure Accum where
  data : List (String × FetchResult)
  errors : List String
  quality_scores : List (String × QualityEntry)
  sources : Registry
deriving DecidableEq

/-- One iteration of the result loop of `update_all_sources`
(`data_sources.py` lines 465-495).  The `isinstance(result, Exception)`
branch is unreachable because the embedded fetches are total; a
successful result is stored under the lower-cased source name, the
`SPACE_WEATHER` result additionally records its quality entry and
overwrites the NASA or NOAA descriptor with `quality_score * 100`; a
failed result contributes an error line. -/
def processResult (acc : Accum) (nr : String × FetchResult) : Accum :=
  let name := nr.1
  let result := nr.2
  if result.success then
    let acc1 := { acc with data := acc.data ++ [(lowerStr name, result)] }
    if name = "SPACE_WEATHER" then
      let qs := result.quality_score.getD 0
      let acc2 := { acc1 with quality_scores := acc1.quality_scores ++
        [("space_weather",
          { quality_score := qs, confidence := result.confidence.getD "unknown",
            primary_source := result.primary_source,
            fallback_used := result.fallback_used.getD false })] }
      if result.primary_source == some "NASA" then
        { acc2 with sources := { acc2.sources with nasa :=
            { acc2.sources.nasa with status := "active", reliability := qs * 100 } } }
      else if result.primary_source == some "NOAA" then
        { acc2 with sources := { acc2.sources with noaa :=
            { acc2.sources.noaa with status := "active", reliability := qs * 100 } } }
      else acc2
    else acc1
  else
    { acc with errors := acc.errors ++ [name ++ ": " ++ result.error.getD "Unknown error"] }

/-- The upstream behaviour of one whole refresh: one environment per
fanned-out task. -/
structure UpdateEnv where
  usgs : Except String (List UsgsFeature)
  emsc : Except String (List SeismicEvent)
  space_weather : SpaceWeatherEnv
  gfz : Except String (List (String × Rat × Rat))

/-- The report dict returned by `update_all_sources`.  The
`processing_time_seconds` of the source is the difference of two
`utcnow()` calls inside one refresh, which this timeless embedding
collapses to the single instant `now`, so the field is omitted. -/
structure RefreshReport where
  success : Bool
  data : List (String × FetchResult)
  errors : List String
  quality_scores : List (String × QualityEntry)
  sources_updated : Nat
  total_sources : Nat
  update_timestamp : Rat
  next_update : Rat
deriving DecidableEq

/-- The fan-out of `update_all_sources` (`asyncio.gather` over the four
tasks): the four results paired with their `source_names` entries, and
the state after all four fetches.  The tasks touch pairwise disjoint
registry entries, so sequential composition is equivalent to the
concurrent gather. -/
def gatherResults (env : UpdateEnv) (now : Rat) (s : ServiceState) :
    List (String × FetchResult) × ServiceState :=
  let p1 := fetch_usgs_earthquake_data env.usgs now s
  let p2 := fetch_emsc_earthquake_data env.emsc now p1.2
  let p3 := fetch_space_weather_with_fallback env.space_weather now p2.2
  let p4 := fetch_gfz_geomagnetic_data env.gfz now p3.2
  ([("USGS", p1.1), ("EMSC", p2.1), ("SPACE_WEATHER", p3.1), ("GFZ", p4.1)], p4.2)

/-- `DataSourcesService.update_all_sources`: fan out the four tasks,
process the results, then unconditionally replace `self.cached_data`
with the freshly collected dict and set `self.last_update = now`.
`total_sources = len(self.data_sources) = 5`; `success = len(data) > 0`;
`next_update = last_update + 20` minutes. -/
def update_all_sources (env : UpdateEnv) (now : Rat) (s : ServiceState) :
    RefreshReport × ServiceState :=
  let g := gatherResults env now s
  let acc := g.1.foldl processResult
    { data := [], errors := [], quality_scores := [], sources := g.2.sources }
  ({ success := decide (0 < acc.data.length), data := acc.data,
     errors := acc.errors, quality_scores := acc.quality_scores,
     sources_updated := acc.data.length, total_sources := 5,
     update_timestamp := now, next_update := now + 20 },
   { sources := acc.sources, cached_data := acc.data, last_update := some now })

/-- The dict returned by `DataSourcesService.get_cached_data` (the fields
the API layer consumes). -/
structure CachedDataView where
  cached_data : List (String × FetchResult)
  cache_age_minutes : Option Rat
deriving DecidableEq

/-- `DataSourcesService.get_cached_data`: the cached dict plus its age in
minutes, `None` when no refresh has ever set `self.last_update`. -/
def get_cached_data (now : Rat) (s : ServiceState) : CachedDataView :=
  { cached_data := s.cached_data
    cache_age_minutes := match s.last_update with
      | some t => some (now - t)
      | none => none }

/-- The response of the `/sources/cached` route (`api/data.py` lines
54-65, the claim-relevant fields). -/
structure ApiCachedData where
  has_cached_data : Bool
  cache_age_minutes : Option Rat
  cached_sources : List String
deriving DecidableEq

/-- The `/sources/cached` route handler `get_cached_data` of
`api/data.py`: `has_cached_data = bool(cached_data)`,
`cached_sources = list(keys) if cached_data else []`. -/
def api_get_cached_data (now : Rat) (s : ServiceState) : ApiCachedData :=
  let c := get_cached_data now s
  { has_cached_data := !c.cached_data.isEmpty
    cache_age_minutes := c.cache_age_minutes
    cached_sources := if c.cached_data.isEmpty then []
      else c.cached_data.map (fun kv => kv.1) }

/-- The outcome of one iteration of the retry loop in
`VolcanicDataIngestor.fetch_usgs_data` (`data_ingest.py` lines 26-55):
either some exception escaped the per-endpoint handlers and reached the
outer `except` (its classification recorded but, notably, never
inspected by the code), or the body completed with the accumulated
`combined_data` (possibly empty, since per-endpoint failures are
swallowed by `continue`). -/
inductive IngestAttempt where
  | raised (classification : String)
  | completed (combined : List (String × Nat))

/-- The observable trace of one `fetch_usgs_data` call: the returned dict,
whether it came from the Redis cache fallback, the backoff sleeps
performed (in seconds), and how many loop iterations ran. -/
structure IngestRun where
  returned : List (String × Nat)
  from_cache : Bool
  delays : List Nat
  attempts : Nat
deriving DecidableEq

/-- The retry loop of `VolcanicDataIngestor.fetch_usgs_data`, with
`fuel` the number of remaining attempts (initially `max_retries = 3`)
and `attempt` the current zero-based index.  An exception on the final
attempt returns the cached fallback; an exception on an earlier attempt
sleeps `2 ** attempt` seconds and retries — whatever the exception's
classification; a completed attempt returns its data when non-empty and
otherwise falls through to the next attempt without sleeping; an
exhausted loop returns `{}`. -/
def ingestLoop (env : Nat → IngestAttempt) (cache : List (String × Nat)) :
    Nat → Nat → IngestRun
  | 0, _ => { returned := [], from_cache := false, delays := [], attempts := 0 }
  | fuel + 1, attempt =>
      match env attempt with
      | .completed d =>
          if d.isEmpty then
            let r := ingestLoop env cache fuel (attempt + 1)
            { r with attempts := r.attempts + 1 }
          else { returned := d, from_cache := false, delays := [], attempts := 1 }
      | .raised _ =>
          if fuel = 0 then
            { returned := cache, from_cache := true, delays := [], attempts := 1 }
          else
            let r := ingestLoop env cache fuel (attempt + 1)
            { returned := r.returned, from_cache := r.from_cache,
              delays := 2 ^ attempt :: r.delays, attempts := r.attempts + 1 }

/-- `VolcanicDataIngestor.fetch_usgs_data` with `max_retries = 3`. -/
def fetch_usgs_data (env : Nat → IngestAttempt) (cache : List (String × Nat)) :
    IngestRun :=
  ingestLoop env cache 3 0

/-! ### Helper lemmas -/

theorem check_quality_success (now : Rat) (d : FetchResult) :
    (check_quality now d).success = d.success := by
  unfold check_quality; cases d.fetch_timestamp <;> rfl

theorem check_quality_error (now : Rat) (d : FetchResult) :
    (check_quality now d).error = d.error := by
  unfold check_quality; cases d.fetch_timestamp <;> rfl

theorem check_quality_se (now : Rat) (d : FetchResult) :
    (check_quality now d).successful_endpoints = d.successful_endpoints := by
  unfold check_quality; cases d.fetch_timestamp <;> rfl

theorem check_quality_te (now : Rat) (d : FetchResult) :
    (check_quality now d).total_endpoints = d.total_endpoints := by
  unfold check_quality; cases d.fetch_timestamp <;> rfl

theorem check_quality_qs (now : Rat) (d : FetchResult) :
    (check_quality now d).quality_score = d.quality_score := by
  unfold check_quality; cases d.fetch_timestamp <;> rfl

theorem usgs_fst_const (env : Except String (List UsgsFeature)) (now : Rat)
    (s s' : ServiceState) :
    (fetch_usgs_earthquake_data env now s).1 =
      (fetch_usgs_earthquake_data env now s').1 := by
  cases env <;> rfl

theorem emsc_fst_const (env : Except String (List SeismicEvent)) (now : Rat)
    (s s' : ServiceState) :
    (fetch_emsc_earthquake_data env now s).1 =
      (fetch_emsc_earthquake_data env now s').1 := by
  cases env <;> rfl

theorem gfz_fst_const (env : Except String (List (String × Rat × Rat))) (now : Rat)
    (s s' : ServiceState) :
    (fetch_gfz_geomagnetic_data env now s).1 =
      (fetch_gfz_geomagnetic_data env now s').1 := by
  cases env <;> rfl

theorem noaa_fst_const (env : NoaaEnv) (now : Rat) (s s' : ServiceState) :
    (fetch_noaa_space_weather_data env now s).1 =
      (fetch_noaa_space_weather_data env now s').1 := by
  rcases env with ⟨oe, sw, gm, sf⟩
  cases oe <;> rfl

theorem nasa_fst_const (env : NasaEnv) (now : Rat) (s s' : ServiceState) :
    (fetch_nasa_space_weather_data env now s).1 =
      (fetch_nasa_space_weather_data env now s').1 := by
  rcases env with ⟨r1, r2⟩
  unfold fetch_nasa_space_weather_data
  rcases r1 with e | ⟨ns1, rows1⟩
  · rfl
  · cases ns1
    · rfl
    · rcases r2 with e | ⟨ns2, rows2⟩
      · rfl
      · cases ns2 <;> rfl

theorem sw_fst (env : SpaceWeatherEnv) (now : Rat) (s : ServiceState) :
    (fetch_space_weather_with_fallback env now s).1 =
      merge_sources_legacy (fetch_nasa_space_weather_data env.nasa now s).1
        (fetch_noaa_space_weather_data env.noaa now s).1 := by
  simp only [fetch_space_weather_with_fallback]
  rw [noaa_fst_const env.noaa now (fetch_nasa_space_weather_data env.nasa now s).2 s]

theorem sw_fst_const (env : SpaceWeatherEnv) (now : Rat) (s s' : ServiceState) :
    (fetch_space_weather_with_fallback env now s).1 =
      (fetch_space_weather_with_fallback env now s').1 := by
  rw [sw_fst, sw_fst, nasa_fst_const env.nasa now s s', noaa_fst_const env.noaa now s s']

theorem gather_fst (env : UpdateEnv) (now : Rat) (s : ServiceState) :
    (gatherResults env now s).1 =
      [("USGS", (fetch_usgs_earthquake_data env.usgs now s).1),
       ("EMSC", (fetch_emsc_earthquake_data env.emsc now s).1),
       ("SPACE_WEATHER", (fetch_space_weather_with_fallback env.space_weather now s).1),
       ("GFZ", (fetch_gfz_geomagnetic_data env.gfz now s).1)] := by
  simp only [gatherResults]
  rw [emsc_fst_const env.emsc now (fetch_usgs_earthquake_data env.usgs now s).2 s,
      sw_fst_const env.space_weather now
        (fetch_emsc_earthquake_data env.emsc now
          (fetch_usgs_earthquake_data env.usgs now s).2).2 s,
      gfz_fst_const env.gfz now
        (fetch_space_weather_with_fallback env.space_weather now
          (fetch_emsc_earthquake_data env.emsc now
            (fetch_usgs_earthquake_data env.usgs now s).2).2).2 s]

theorem processResult_data (acc : Accum) (nr : String × FetchResult) :
    (processResult acc nr).data =
      acc.data ++ (if nr.2.success then [(lowerStr nr.1, nr.2)] else []) := by
  unfold processResult
  by_cases hs : nr.2.success
  · simp only [hs, if_true]
    split
    · split
      · rfl
      · split <;> rfl
    · rfl
  · simp [hs]

theorem processResult_errors (acc : Accum) (nr : String × FetchResult) :
    (processResult acc nr).errors =
      acc.errors ++ (if nr.2.success then []
        else [nr.1 ++ ": " ++ nr.2.error.getD "Unknown error"]) := by
  unfold processResult
  by_cases hs : nr.2.success
  · simp only [hs, if_true]
    split
    · split
      · simp
      · split <;> simp
    · simp
  · simp [hs]

theorem foldl_processResult_data_length (rs : List (String × FetchResult)) (acc : Accum) :
    (rs.foldl processResult acc).data.length =
      acc.data.length + rs.countP (fun nr => nr.2.success) := by
  induction rs generalizing acc with
  | nil => simp
  | cons hd tl ih =>
      rw [List.foldl_cons, ih, processResult_data, List.countP_cons]
      by_cases h : hd.2.success
      · simp [h]
        omega
      · simp [h]

theorem foldl_processResult_data_nil (rs : List (String × FetchResult)) (acc : Accum)
    (h : ∀ nr ∈ rs, nr.2.success = false) :
    (rs.foldl processResult acc).data = acc.data := by
  induction rs generalizing acc with
  | nil => rfl
  | cons hd tl ih =>
      rw [List.foldl_cons, ih _ (fun nr hm => h nr (List.mem_cons_of_mem _ hm))]
      rw [processResult_data, h hd (List.mem_cons_self hd tl)]
      simp

theorem merge_fail (a b : FetchResult) (ha : a.success = false) (hb : b.success = false) :
    (merge_sources_legacy a b).success = false := by
  simp [merge_sources_legacy, ha, hb]

theorem merge_qs_bounds (a b : FetchResult)
    (h : b.successful_endpoints.getD 0 ≤ b.total_endpoints.getD 1) :
    0 ≤ (merge_sources_legacy a b).quality_score.getD 0 ∧
      (merge_sources_legacy a b).quality_score.getD 0 ≤ 9/10 := by
  unfold merge_sources_legacy
  split
  · norm_num
  · have hr0 : (0:Rat) ≤ ((b.successful_endpoints.getD 0 : Nat) : Rat) /
        ((b.total_endpoints.getD 1 : Nat) : Rat) := by positivity
    have hr1 : ((b.successful_endpoints.getD 0 : Nat) : Rat) /
        ((b.total_endpoints.getD 1 : Nat) : Rat) ≤ 1 := by
      rcases Nat.eq_zero_or_pos (b.total_endpoints.getD 1) with h0 | hpos
      · have hs0 : b.successful_endpoints.getD 0 = 0 := Nat.le_zero.mp (h0 ▸ h)
        rw [h0, hs0]; norm_num
      · rw [div_le_one (by exact_mod_cast hpos)]
        exact_mod_cast h
    split
    · dsimp only [Option.getD_some]
      split <;> constructor <;> nlinarith
    · split
      · norm_num
      · norm_num

theorem noaaStep_snd_le (acc : List (String × List Rat) × Nat)
    (kv : String × Except String (List Rat)) : (noaaStep acc kv).2 ≤ acc.2 + 1 := by
  unfold noaaStep
  rcases kv with ⟨key, e⟩
  rcases e with e | d
  · simp
  · dsimp only
    split
    · omega
    · simp

theorem noaaFold_count_le (l : List (String × Except String (List Rat)))
    (acc : List (String × List Rat) × Nat) :
    (l.foldl noaaStep acc).2 ≤ acc.2 + l.length := by
  induction l generalizing acc with
  | nil => simp
  | cons hd tl ih =>
      rw [List.foldl_cons, List.length_cons]
      calc (tl.foldl noaaStep (noaaStep acc hd)).2 ≤ (noaaStep acc hd).2 + tl.length := ih _
        _ ≤ acc.2 + (tl.length + 1) := by
            have := noaaStep_snd_le acc hd; omega

theorem noaa_endpoints_le (env : NoaaEnv) (now : Rat) (s : ServiceState) :
    (fetch_noaa_space_weather_data env now s).1.successful_endpoints.getD 0 ≤
      (fetch_noaa_space_weather_data env now s).1.total_endpoints.getD 1 := by
  rcases env with ⟨oe, sw, gm, sf⟩
  cases oe with
  | some e => simp [fetch_noaa_space_weather_data]
  | none =>
      simp only [fetch_noaa_space_weather_data, check_quality_se, check_quality_te,
        Option.getD_some]
      simpa using noaaFold_count_le
        [("solar_wind", sw), ("geomagnetic", gm), ("solar_flux", sf)] ([], 0)

theorem usgs_qs_none (env : Except String (List UsgsFeature)) (now : Rat)
    (s : ServiceState) : (fetch_usgs_earthquake_data env now s).1.quality_score = none := by
  cases env <;> rfl

theorem emsc_qs_none (env : Except String (List SeismicEvent)) (now : Rat)
    (s : ServiceState) : (fetch_emsc_earthquake_data env now s).1.quality_score = none := by
  cases env <;> rfl

theorem gfz_qs_none (env : Except String (List (String × Rat × Rat))) (now : Rat)
    (s : ServiceState) : (fetch_gfz_geomagnetic_data env now s).1.quality_score = none := by
  cases env <;> rfl

theorem sw_qs_bounds (env : SpaceWeatherEnv) (now : Rat) (s : ServiceState) :
    0 ≤ (fetch_space_weather_with_fallback env now s).1.quality_score.getD 0 ∧
      (fetch_space_weather_with_fallback env now s).1.quality_score.getD 0 ≤ 9/10 := by
  rw [sw_fst]
  exact merge_qs_bounds _ _ (noaa_endpoints_le env.noaa now s)

/-- The registry invariant of the spec: every descriptor's reliability lies
in `[0, 100]`. -/
def reliabilityOK (reg : Registry) : Prop :=
  (0 ≤ reg.usgs.reliability ∧ reg.usgs.reliability ≤ 100) ∧
  (0 ≤ reg.emsc.reliability ∧ reg.emsc.reliability ≤ 100) ∧
  (0 ≤ reg.noaa.reliability ∧ reg.noaa.reliability ≤ 100) ∧
  (0 ≤ reg.gfz.reliability ∧ reg.gfz.reliability ≤ 100) ∧
  (0 ≤ reg.nasa.reliability ∧ reg.nasa.reliability ≤ 100)

theorem processResult_sources (acc : Accum) (nr : String × FetchResult)
    (hq0 : 0 ≤ nr.2.quality_score.getD 0) (hq1 : nr.2.quality_score.getD 0 ≤ 9/10)
    (h : reliabilityOK acc.sources) : reliabilityOK (processResult acc nr).sources := by
  obtain ⟨h1, h2, h3, h4, h5⟩ := h
  unfold processResult
  by_cases hs : nr.2.success
  · simp only [hs, if_true]
    split
    · split
      · refine ⟨h1, h2, h3, h4, ?_, ?_⟩ <;> dsimp only
        · exact mul_nonneg hq0 (by norm_num)
        · nlinarith
      · split
        · refine ⟨h1, h2, ⟨?_, ?_⟩, h4, h5⟩ <;> dsimp only
          · exact mul_nonneg hq0 (by norm_num)
          · nlinarith
        · exact ⟨h1, h2, h3, h4, h5⟩
    · exact ⟨h1, h2, h3, h4, h5⟩
  · simp only [hs]
    exact ⟨h1, h2, h3, h4, h5⟩

theorem usgs_preserves (env : Except String (List UsgsFeature)) (now : Rat)
    (s : ServiceState) (h : reliabilityOK s.sources) :
    reliabilityOK (fetch_usgs_earthquake_data env now s).2.sources := by
  obtain ⟨h1, h2, h3, h4, h5⟩ := h
  rcases env with e | v <;> dsimp only [fetch_usgs_earthquake_data] <;>
    exact ⟨⟨by norm_num, by norm_num⟩, h2, h3, h4, h5⟩

theorem emsc_preserves (env : Except String (List SeismicEvent)) (now : Rat)
    (s : ServiceState) (h : reliabilityOK s.sources) :
    reliabilityOK (fetch_emsc_earthquake_data env now s).2.sources := by
  obtain ⟨h1, h2, h3, h4, h5⟩ := h
  rcases env with e | v <;> dsimp only [fetch_emsc_earthquake_data] <;>
    exact ⟨h1, ⟨by norm_num, by norm_num⟩, h3, h4, h5⟩

theorem gfz_preserves (env : Except String (List (String × Rat × Rat))) (now : Rat)
    (s : ServiceState) (h : reliabilityOK s.sources) :
    reliabilityOK (fetch_gfz_geomagnetic_data env now s).2.sources := by
  obtain ⟨h1, h2, h3, h4, h5⟩ := h
  rcases env with e | v <;> dsimp only [fetch_gfz_geomagnetic_data] <;>
    exact ⟨h1, h2, h3, ⟨by norm_num, by norm_num⟩, h5⟩

theorem nasa_preserves (env : NasaEnv) (now : Rat) (s : ServiceState)
    (h : reliabilityOK s.sources) :
    reliabilityOK (fetch_nasa_space_weather_data env now s).2.sources := by
  obtain ⟨h1, h2, h3, h4, h5⟩ := h
  have hfail : ∀ e, reliabilityOK (nasaFailure e s).2.sources := by
    intro e
    dsimp only [nasaFailure]
    exact ⟨h1, h2, h3, h4, ⟨by norm_num, by norm_num⟩⟩
  have hok : ∀ rows, reliabilityOK (nasaSuccess rows now s).2.sources := by
    intro rows
    dsimp only [nasaSuccess]
    exact ⟨h1, h2, h3, h4, ⟨by norm_num, by norm_num⟩⟩
  unfold fetch_nasa_space_weather_data
  rcases env with ⟨r1, r2⟩
  rcases r1 with e | ⟨ns1, rows1⟩
  · exact hfail e
  · cases ns1
    · exact hok rows1
    · rcases r2 with e | ⟨ns2, rows2⟩
      · exact hfail e
      · cases ns2
        · exact hok rows2
        · exact hfail _

theorem noaa_preserves (env : NoaaEnv) (now : Rat) (s : ServiceState)
    (h : reliabilityOK s.sources) :
    reliabilityOK (fetch_noaa_space_weather_data env now s).2.sources := by
  obtain ⟨h1, h2, h3, h4, h5⟩ := h
  rcases env with ⟨oe, sw, gm, sf⟩
  cases oe with
  | some e =>
      dsimp only [fetch_noaa_space_weather_data]
      exact ⟨h1, h2, ⟨by norm_num, by norm_num⟩, h4, h5⟩
  | none =>
      have hk : ([("solar_wind", sw), ("geomagnetic", gm),
          ("solar_flux", sf)].foldl noaaStep ([], 0)).2 ≤ 3 := by
        simpa using noaaFold_count_le
          [("solar_wind", sw), ("geomagnetic", gm), ("solar_flux", sf)] ([], 0)
      have hkr : ((([("solar_wind", sw), ("geomagnetic", gm),
          ("solar_flux", sf)].foldl noaaStep ([], 0)).2 : Nat) : Rat) ≤ 3 := by
        exact_mod_cast hk
      refine ⟨h1, h2, ⟨?_, ?_⟩, h4, h5⟩
      · dsimp only [fetch_noaa_space_weather_data]
        positivity
      · dsimp only [fetch_noaa_space_weather_data]
        nlinarith

theorem sw_preserves (env : SpaceWeatherEnv) (now : Rat) (s : ServiceState)
    (h : reliabilityOK s.sources) :
    reliabilityOK (fetch_space_weather_with_fallback env now s).2.sources := by
  simp only [fetch_space_weather_with_fallback]
  exact noaa_preserves _ _ _ (nasa_preserves _ _ _ h)

theorem gather_preserves (env : UpdateEnv) (now : Rat) (s : ServiceState)
    (h : reliabilityOK s.sources) :
    reliabilityOK (gatherResults env now s).2.sources := by
  simp only [gatherResults]
  exact gfz_preserves _ _ _ (sw_preserves _ _ _ (emsc_preserves _ _ _ (usgs_preserves _ _ _ h)))

theorem update_all_preserves (env : UpdateEnv) (now : Rat) (s : ServiceState)
    (h : reliabilityOK s.sources) :
    reliabilityOK (update_all_sources env now s).2.sources := by
  simp only [update_all_sources]
  rw [gather_fst]
  simp only [List.foldl_cons, List.foldl_nil]
  refine processResult_sources _ ("GFZ", _) ?_ ?_
    (processResult_sources _ ("SPACE_WEATHER", _) ?_ ?_
      (processResult_sources _ ("EMSC", _) ?_ ?_
        (processResult_sources _ ("USGS", _) ?_ ?_ ?_)))
  · rw [gfz_qs_none]; norm_num
  · rw [gfz_qs_none]; norm_num
  · exact (sw_qs_bounds env.space_weather now s).1
  · exact (sw_qs_bounds env.space_weather now s).2
  · rw [emsc_qs_none]; norm_num
  · rw [emsc_qs_none]; norm_num
  · rw [usgs_qs_none]; norm_num
  · rw [usgs_qs_none]; norm_num
  · exact gather_preserves env now s h

/-! ### Concrete sample environments -/

/-- A NASA environment whose request times out. -/
def nasaFailEnv : NasaEnv := { resp1 := .error "timeout", resp2 := .error "timeout" }

/-- A NASA environment answering normally on the first request. -/
def nasaOkEnv : NasaEnv :=
  { resp1 := .ok { no_spacecraft := false, rows := [] }
    resp2 := .ok { no_spacecraft := false, rows := [] } }

/-- A NOAA environment whose three endpoint sub-requests all raise. -/
def noaaFailEnv : NoaaEnv :=
  { outer_exn := none, solar_wind := .error "timeout"
    geomagnetic := .error "timeout", solar_flux := .error "timeout" }

/-- A NOAA environment whose three endpoint sub-requests all return data. -/
def noaaOkEnv : NoaaEnv :=
  { outer_exn := none, solar_wind := .ok [1]
    geomagnetic := .ok [1], solar_flux := .ok [1] }

/-- A refresh in which every upstream source answers. -/
def envAllOk : UpdateEnv :=
  { usgs := .ok [], emsc := .ok []
    space_weather := { nasa := nasaOkEnv, noaa := noaaOkEnv }, gfz := .ok [] }

/-- A refresh in which every upstream source fails. -/
def envAllFail : UpdateEnv :=
  { usgs := .error "timeout", emsc := .error "connection refused"
    space_weather := { nasa := nasaFailEnv, noaa := noaaFailEnv }
    gfz := .error "parse failure" }

/-- Scenario A of the spec: three of the five configured sources succeed
(USGS, EMSC, GFZ) while the two space-weather providers (NASA and NOAA)
time out. -/
def envScenarioA : UpdateEnv :=
  { usgs := .ok [], emsc := .ok []
    space_weather := { nasa := nasaFailEnv, noaa := noaaFailEnv }, gfz := .ok [] }

/-- A refresh in which only USGS answers: enough for a successful refresh
that leaves a non-empty cache behind. -/
def envUsgsOnly : UpdateEnv :=
  { usgs := .ok [], emsc := .error "timeout"
    space_weather := { nasa := nasaFailEnv, noaa := noaaFailEnv }
    gfz := .error "timeout" }

/-- The service state after a successful refresh at time `100`. -/
def c1PriorState : ServiceState := (update_all_sources envUsgsOnly 100 initState).2

/-! ### Claims -/

/-- C1 (counterexample): after a successful refresh at time 100 left a
non-empty cache, a refresh at time 200 in which every source fails
returns `sources_updated = 0` and `success = false` as claimed, but a
subsequent `get_cached_data` does NOT return the prior snapshot: the
cache was overwritten with the empty dict, so `has_cached_data` is
`false`, the cached source list is empty, and the cache age is measured
from the failed refresh (30 minutes at time 230) instead of having
increased from the prior snapshot's age. -/
theorem c1_counterexample :
    (api_get_cached_data 150 c1PriorState).has_cached_data = true ∧
    (update_all_sources envAllFail 200 c1PriorState).1.sources_updated = 0 ∧
    (update_all_sources envAllFail 200 c1PriorState).1.success = false ∧
    (api_get_cached_data 230
      (update_all_sources envAllFail 200 c1PriorState).2).has_cached_data = false ∧
    (api_get_cached_data 230
      (update_all_sources envAllFail 200 c1PriorState).2).cached_sources = [] ∧
    (api_get_cached_data 230
      (update_all_sources envAllFail 200 c1PriorState).2).cache_age_minutes =
      some (230 - 200) :=
  ⟨rfl, rfl, rfl, rfl, rfl, rfl⟩

/-- C1 (amended): for every refresh in which every source fetch fails, the
report has `sources_updated = 0` and `success = false`; but
`update_all_sources` unconditionally replaces `self.cached_data` with the
(now empty) dict and resets `self.last_update`, so a subsequent
`get_cached_data` serves an empty cache (`has_cached_data = false`, no
cached sources) whose age is measured from the failed refresh — the
previous payload is not retained. -/
theorem c1_total_failure_refresh (env : UpdateEnv) (now now' : Rat) (s : ServiceState)
    (hU : (fetch_usgs_earthquake_data env.usgs now s).1.success = false)
    (hE : (fetch_emsc_earthquake_data env.emsc now s).1.success = false)
    (hN : (fetch_nasa_space_weather_data env.space_weather.nasa now s).1.success = false)
    (hO : (fetch_noaa_space_weather_data env.space_weather.noaa now s).1.success = false)
    (hG : (fetch_gfz_geomagnetic_data env.gfz now s).1.success = false) :
    (update_all_sources env now s).1.sources_updated = 0 ∧
    (update_all_sources env now s).1.success = false ∧
    (update_all_sources env now s).2.cached_data = [] ∧
    (update_all_sources env now s).2.last_update = some now ∧
    api_get_cached_data now' (update_all_sources env now s).2 =
      { has_cached_data := false, cache_age_minutes := some (now' - now)
        cached_sources := [] } := by
  have hSW : (fetch_space_weather_with_fallback env.space_weather now s).1.success = false := by
    rw [sw_fst]; exact merge_fail _ _ hN hO
  have hall : forall nr, nr ∈ (gatherResults env now s).1 → nr.2.success = false := by
    rw [gather_fst]
    intro nr hnr
    simp only [List.mem_cons, List.not_mem_nil, or_false] at hnr
    rcases hnr with rfl | rfl | rfl | rfl
    · exact hU
    · exact hE
    · exact hSW
    · exact hG
  have hnil : ((gatherResults env now s).1.foldl processResult
      { data := [], errors := [], quality_scores := []
        sources := (gatherResults env now s).2.sources }).data = [] :=
    foldl_processResult_data_nil _ _ hall
  refine ⟨?_, ?_, ?_, ?_, ?_⟩
  · simp only [update_all_sources]
    rw [hnil]
    rfl
  · simp only [update_all_sources]
    rw [hnil]
    rfl
  · simp only [update_all_sources]
    exact hnil
  · simp only [update_all_sources]
  · simp only [api_get_cached_data, get_cached_data, update_all_sources]
    rw [hnil]
    rfl

/-- C1 (witness): the amended theorem applied to the all-failing
environment at time 200, queried at time 230. -/
theorem c1_total_failure_refresh_witness :
    (update_all_sources envAllFail 200 initState).1.sources_updated = 0 ∧
    (update_all_sources envAllFail 200 initState).1.success = false ∧
    (update_all_sources envAllFail 200 initState).2.cached_data = [] ∧
    (update_all_sources envAllFail 200 initState).2.last_update = some 200 ∧
    api_get_cached_data 230 (update_all_sources envAllFail 200 initState).2 =
      { has_cached_data := false, cache_age_minutes := some (230 - 200)
        cached_sources := [] } :=
  c1_total_failure_refresh envAllFail 200 230 initState rfl rfl rfl rfl rfl

/-- C2 (counterexample): when all three NOAA endpoint sub-requests fail
inside the loop (no outer exception), the returned record has
`success = false` but carries NO error message, contradicting the claim
that every failing fetch returns `success = false` together with an
error message. -/
theorem c2_counterexample :
    (fetch_noaa_space_weather_data noaaFailEnv 0 initState).1.success = false ∧
    (fetch_noaa_space_weather_data noaaFailEnv 0 initState).1.error = none :=
  ⟨rfl, rfl⟩

/-- C2 (amended): every adapter fetch is total (it returns a result record
for every upstream behaviour — immediate from the embedding) and returns
`success = false` with an error message on failure, except that the NOAA
adapter's failure record carries an error message if and only if the
failure came from an exception outside its endpoint loop; a failure in
which all three endpoint sub-requests merely failed inside the loop
yields `success = false` without an error field. -/
theorem c2_adapter_failure_contract :
    (∀ env now s, (fetch_usgs_earthquake_data env now s).1.success = false →
      ((fetch_usgs_earthquake_data env now s).1.error).isSome = true) ∧
    (∀ env now s, (fetch_emsc_earthquake_data env now s).1.success = false →
      ((fetch_emsc_earthquake_data env now s).1.error).isSome = true) ∧
    (∀ env now s, (fetch_gfz_geomagnetic_data env now s).1.success = false →
      ((fetch_gfz_geomagnetic_data env now s).1.error).isSome = true) ∧
    (∀ env now s, (fetch_nasa_space_weather_data env now s).1.success = false →
      ((fetch_nasa_space_weather_data env now s).1.error).isSome = true) ∧
    (∀ env now s, (fetch_noaa_space_weather_data env now s).1.success = false →
      (((fetch_noaa_space_weather_data env now s).1.error).isSome = true ↔
        env.outer_exn.isSome = true)) := by
  refine ⟨?_, ?_, ?_, ?_, ?_⟩
  · intro env now s h
    rcases env with e | v
    · rfl
    · exact Bool.noConfusion (show true = false from h)
  · intro env now s h
    rcases env with e | v
    · rfl
    · exact Bool.noConfusion (show true = false from h)
  · intro env now s h
    rcases env with e | v
    · rfl
    · exact Bool.noConfusion (show true = false from h)
  · intro env now s h
    rcases env with ⟨r1, r2⟩
    unfold fetch_nasa_space_weather_data at h ⊢
    rcases r1 with e | ⟨ns1, rows1⟩
    · rfl
    · cases ns1
      · exact Bool.noConfusion
          (show true = false from (check_quality_success now _).symm.trans h)
      · rcases r2 with e | ⟨ns2, rows2⟩
        · rfl
        · cases ns2
          · exact Bool.noConfusion
              (show true = false from (check_quality_success now _).symm.trans h)
          · rfl
  · intro env now s h
    rcases env with ⟨oe, sw, gm, sf⟩
    cases oe with
    | some e => simp [fetch_noaa_space_weather_data]
    | none => simp [fetch_noaa_space_weather_data, check_quality_error]

/-- C2 (witness): the amended contract applied to a timed-out USGS fetch
and to a NOAA fetch failing with an outer exception. -/
theorem c2_adapter_failure_contract_witness :
    ((fetch_usgs_earthquake_data (.error "timeout") 0 initState).1.error).isSome = true ∧
    (((fetch_noaa_space_weather_data
        { outer_exn := some "404", solar_wind := .ok [], geomagnetic := .ok []
          solar_flux := .ok [] } 0 initState).1.error).isSome = true ↔
      (some "404" : Option String).isSome = true) :=
  ⟨c2_adapter_failure_contract.1 (.error "timeout") 0 initState rfl,
   c2_adapter_failure_contract.2.2.2.2
     { outer_exn := some "404", solar_wind := .ok [], geomagnetic := .ok []
       solar_flux := .ok [] } 0 initState rfl⟩

/-- C3 (confirmed): `merge_sources_legacy` follows the fixed four-step
precedence: a high-confidence successful primary is used without
fallback; otherwise a successful secondary is used with fallback;
otherwise a successful (low-confidence) primary is used without fallback
at degraded quality `0.4`; otherwise the merge is a failure whose error
concatenates both providers' error messages. -/
theorem c3_merge_precedence (nasa_result noaa_result : FetchResult) :
    (nasa_result.success = true → nasa_result.confidence = some "high" →
      (merge_sources_legacy nasa_result noaa_result).success = true ∧
      (merge_sources_legacy nasa_result noaa_result).primary_source = some "NASA" ∧
      (merge_sources_legacy nasa_result noaa_result).fallback_used = some false ∧
      (merge_sources_legacy nasa_result noaa_result).data =
        some (nasa_result.data.getD .emptyList) ∧
      (merge_sources_legacy nasa_result noaa_result).quality_score = some (9/10)) ∧
    (¬(nasa_result.success = true ∧ nasa_result.confidence = some "high") →
      noaa_result.success = true →
      (merge_sources_legacy nasa_result noaa_result).success = true ∧
      (merge_sources_legacy nasa_result noaa_result).primary_source = some "NOAA" ∧
      (merge_sources_legacy nasa_result noaa_result).fallback_used = some true ∧
      (merge_sources_legacy nasa_result noaa_result).data =
        some (noaa_result.data.getD .emptyDict)) ∧
    (¬(nasa_result.success = true ∧ nasa_result.confidence = some "high") →
      noaa_result.success = false → nasa_result.success = true →
      (merge_sources_legacy nasa_result noaa_result).success = true ∧
      (merge_sources_legacy nasa_result noaa_result).primary_source = some "NASA" ∧
      (merge_sources_legacy nasa_result noaa_result).fallback_used = some false ∧
      (merge_sources_legacy nasa_result noaa_result).quality_score = some (4/10)) ∧
    (nasa_result.success = false → noaa_result.success = false →
      (merge_sources_legacy nasa_result noaa_result).success = false ∧
      (merge_sources_legacy nasa_result noaa_result).error =
        some ("NASA: " ++ nasa_result.error.getD "Unknown error" ++
          ", NOAA: " ++ noaa_result.error.getD "Unknown error")) := by
  refine ⟨?_, ?_, ?_, ?_⟩
  · intro h1 h2
    simp [merge_sources_legacy, h1, h2]
  · intro h1 h2
    have hg : (nasa_result.success && (nasa_result.confidence == some "high")) = false := by
      by_cases hs : nasa_result.success = true
      · by_cases hc : nasa_result.confidence = some "high"
        · exact absurd ⟨hs, hc⟩ h1
        · simp [hs, hc]
      · simp only [Bool.not_eq_true] at hs
        simp [hs]
    simp [merge_sources_legacy, hg, h2]
  · intro h1 h2 h3
    have hc : ¬(nasa_result.confidence = some "high") := fun hc => h1 ⟨h3, hc⟩
    simp [merge_sources_legacy, hc, h2, h3]
  · intro h1 h2
    simp [merge_sources_legacy, h1, h2]

/-- C3 (witness): the precedence applied at a high-confidence successful
primary. -/
theorem c3_merge_precedence_witness :
    (merge_sources_legacy { success := true, confidence := some "high" } {}).success = true ∧
    (merge_sources_legacy { success := true, confidence := some "high" }
      {}).primary_source = some "NASA" ∧
    (merge_sources_legacy { success := true, confidence := some "high" }
      {}).fallback_used = some false ∧
    (merge_sources_legacy { success := true, confidence := some "high" } {}).data =
      some (({ success := true, confidence := some "high" } : FetchResult).data.getD
        .emptyList) ∧
    (merge_sources_legacy { success := true, confidence := some "high" }
      {}).quality_score = some (9/10) :=
  (c3_merge_precedence { success := true, confidence := some "high" } {}).1 rfl rfl

/-- A failed primary fetch result used as a concrete merge input. -/
def nasaFailSample : FetchResult := { success := false, error := some "NASA down" }

/-- A failed secondary fetch result used as a concrete merge input. -/
def noaaFailSample : FetchResult := { success := false, error := some "NOAA down" }

/-- C4 (counterexample): when both providers fail, the claimed equivalence
`fallback_used = true ↔ (primary.success = false ∨ primary.confidence ≠
high)` is violated: its right-hand side holds but the merged record has
`fallback_used = false`. -/
theorem c4_counterexample :
    ¬((merge_sources_legacy nasaFailSample noaaFailSample).fallback_used = some true ↔
      (nasaFailSample.success = false ∨ nasaFailSample.confidence ≠ some "high")) := by
  intro h
  have hfb : (merge_sources_legacy nasaFailSample noaaFailSample).fallback_used =
      some true := h.mpr (Or.inl rfl)
  simp [merge_sources_legacy, nasaFailSample, noaaFailSample] at hfb

/-- C4 (amended): `fallback_used = true` holds if and only if the primary
did not succeed with high confidence AND the secondary succeeded (when
both providers fail, `fallback_used` stays `false`). -/
theorem c4_fallback_iff (p s : FetchResult) :
    (merge_sources_legacy p s).fallback_used = some true ↔
      (¬(p.success = true ∧ p.confidence = some "high") ∧ s.success = true) := by
  by_cases hs : p.success = true
  · by_cases hc : p.confidence = some "high"
    · simp [merge_sources_legacy, hs, hc]
    · by_cases hn : s.success = true
      · simp [merge_sources_legacy, hs, hc, hn]
      · simp only [Bool.not_eq_true] at hn
        simp [merge_sources_legacy, hs, hc, hn]
  · simp only [Bool.not_eq_true] at hs
    by_cases hn : s.success = true
    · simp [merge_sources_legacy, hs, hn]
    · simp only [Bool.not_eq_true] at hn
      simp [merge_sources_legacy, hs, hn]

/-- C5 (counterexample): in the claimed scenario — three of the five
configured sources succeed (USGS, EMSC, GFZ) and the two space-weather
providers time out — the report has `sources_updated = 3` and
`success = true` as claimed, but its errors list has length 1, not 2:
the NASA and NOAA providers are merged into the single `SPACE_WEATHER`
feed, which contributes one combined error line. -/
theorem c5_counterexample :
    (update_all_sources envScenarioA 100 initState).1.sources_updated = 3 ∧
    (update_all_sources envScenarioA 100 initState).1.success = true ∧
    (update_all_sources envScenarioA 100 initState).1.errors.length ≠ 2 :=
  ⟨rfl, rfl, by decide⟩

/-- C5 (amended): `sources_updated` always equals the count of results
with `success = true` among the four gathered feed results (the two
space-weather providers count as one merged feed); in the scenario where
USGS, EMSC and GFZ succeed and both space-weather providers time out,
the report has `sources_updated = 3`, `success = true`, and an errors
list of length 1 (one combined entry for the merged space-weather
feed). -/
theorem c5_sources_updated_counts :
    (∀ env now s, (update_all_sources env now s).1.sources_updated =
      (gatherResults env now s).1.countP (fun nr => nr.2.success)) ∧
    ((update_all_sources envScenarioA 100 initState).1.sources_updated = 3 ∧
     (update_all_sources envScenarioA 100 initState).1.errors.length = 1 ∧
     (update_all_sources envScenarioA 100 initState).1.success = true) := by
  refine ⟨?_, rfl, rfl, rfl⟩
  intro env now s
  simp only [update_all_sources]
  rw [foldl_processResult_data_length]
  simp

/-- An ingest environment whose first attempt raises a non-transient
(malformed-request) exception and whose later attempts succeed. -/
def ingestEnvOneMalformed : Nat → IngestAttempt :=
  fun n => if n = 0 then .raised "malformed request" else .completed [("events", 1)]

/-- An ingest environment in which every attempt raises. -/
def ingestEnvAllRaised : Nat → IngestAttempt := fun _ => .raised "timeout"

theorem ingestLoop_zero (env : Nat → IngestAttempt) (cache : List (String × Nat))
    (attempt : Nat) :
    ingestLoop env cache 0 attempt =
      { returned := [], from_cache := false, delays := [], attempts := 0 } := rfl

theorem ingestLoop_succ (env : Nat → IngestAttempt) (cache : List (String × Nat))
    (fuel attempt : Nat) :
    ingestLoop env cache (fuel + 1) attempt =
      match env attempt with
      | .completed d =>
          if d.isEmpty then
            let r := ingestLoop env cache fuel (attempt + 1)
            { r with attempts := r.attempts + 1 }
          else { returned := d, from_cache := false, delays := [], attempts := 1 }
      | .raised _ =>
          if fuel = 0 then
            { returned := cache, from_cache := true, delays := [], attempts := 1 }
          else
            let r := ingestLoop env cache fuel (attempt + 1)
            { returned := r.returned, from_cache := r.from_cache,
              delays := 2 ^ attempt :: r.delays, attempts := r.attempts + 1 } := rfl

theorem ingestLoop_attempts_pos (env : Nat → IngestAttempt) (cache : List (String × Nat))
    (fuel attempt : Nat) : 1 ≤ (ingestLoop env cache (fuel + 1) attempt).attempts := by
  rw [ingestLoop_succ]
  cases env attempt with
  | completed d =>
      dsimp only
      split
      · dsimp only; omega
      · dsimp only; omega
  | raised c =>
      dsimp only
      split
      · dsimp only; omega
      · dsimp only; omega

theorem ingestLoop_one_delays (env : Nat → IngestAttempt) (cache : List (String × Nat))
    (a : Nat) : (ingestLoop env cache 1 a).delays = [] := by
  rw [show (1 : Nat) = 0 + 1 from rfl, ingestLoop_succ]
  cases env a with
  | completed d =>
      dsimp only
      split
      · dsimp only; rw [ingestLoop_zero]
      · rfl
  | raised c =>
      dsimp only
      rw [if_pos rfl]

theorem ingestLoop_two_delays (env : Nat → IngestAttempt) (cache : List (String × Nat))
    (a : Nat) :
    (ingestLoop env cache 2 a).delays = [] ∨
      (ingestLoop env cache 2 a).delays = [2 ^ a] := by
  rw [show (2 : Nat) = 1 + 1 from rfl, ingestLoop_succ]
  cases env a with
  | completed d =>
      dsimp only
      split
      · dsimp only
        exact Or.inl (ingestLoop_one_delays env cache (a + 1))
      · exact Or.inl rfl
  | raised c =>
      dsimp only
      rw [if_neg one_ne_zero]
      dsimp only
      rw [ingestLoop_one_delays]
      exact Or.inr rfl

theorem ingestLoop_three_delays (env : Nat → IngestAttempt) (cache : List (String × Nat))
    (a : Nat) :
    (ingestLoop env cache 3 a).delays = [] ∨
    (ingestLoop env cache 3 a).delays = [2 ^ a] ∨
    (ingestLoop env cache 3 a).delays = [2 ^ (a + 1)] ∨
    (ingestLoop env cache 3 a).delays = [2 ^ a, 2 ^ (a + 1)] := by
  rw [show (3 : Nat) = 2 + 1 from rfl, ingestLoop_succ]
  cases env a with
  | completed d =>
      dsimp only
      split
      · dsimp only
        rcases ingestLoop_two_delays env cache (a + 1) with h | h <;> rw [h]
        · exact Or.inl rfl
        · exact Or.inr (Or.inr (Or.inl rfl))
      · exact Or.inl rfl
  | raised c =>
      dsimp only
      rw [if_neg (by omega : ¬(2 : Nat) = 0)]
      dsimp only
      rcases ingestLoop_two_delays env cache (a + 1) with h | h <;> rw [h]
      · exact Or.inr (Or.inl rfl)
      · exact Or.inr (Or.inr (Or.inr rfl))

/-- C6 (counterexample): a non-transient (malformed request) exception on
the first attempt is NOT failed immediately: the loop sleeps 1 second
and retries, and the run succeeds on the second attempt, contradicting
the claim that non-transient failures fail immediately without retry. -/
theorem c6_counterexample :
    fetch_usgs_data ingestEnvOneMalformed [] =
      { returned := [("events", 1)], from_cache := false, delays := [1], attempts := 2 } :=
  rfl

/-- C6 (amended): the retry loop of `fetch_usgs_data` (max 3 attempts)
retries after ANY exception, regardless of its classification — there is
no transient/non-transient distinction — with a backoff of `2 ^ attempt`
seconds, so the delays performed are always an initial or final segment
of `[1, 2]` (each successive delay doubling); when all three attempts
raise, the call falls back to the cached data. -/
theorem c6_retry_behaviour :
    (∀ env cache c, env 0 = IngestAttempt.raised c →
      2 ≤ (fetch_usgs_data env cache).attempts ∧
      (fetch_usgs_data env cache).delays.head? = some 1) ∧
    (∀ env cache, (fetch_usgs_data env cache).delays = [] ∨
      (fetch_usgs_data env cache).delays = [1] ∨
      (fetch_usgs_data env cache).delays = [2] ∨
      (fetch_usgs_data env cache).delays = [1, 2]) ∧
    (∀ env cache c0 c1 c2, env 0 = IngestAttempt.raised c0 →
      env 1 = IngestAttempt.raised c1 → env 2 = IngestAttempt.raised c2 →
      (fetch_usgs_data env cache).returned = cache ∧
      (fetch_usgs_data env cache).from_cache = true) := by
  refine ⟨?_, ?_, ?_⟩
  · intro env cache c h
    unfold fetch_usgs_data
    rw [show (3 : Nat) = 2 + 1 from rfl, ingestLoop_succ, h]
    dsimp only
    rw [if_neg (by omega : ¬(2 : Nat) = 0)]
    dsimp only
    constructor
    · have h1 : 1 ≤ (ingestLoop env cache 2 (0 + 1)).attempts :=
        ingestLoop_attempts_pos env cache 1 (0 + 1)
      omega
    · rfl
  · intro env cache
    have h3 := ingestLoop_three_delays env cache 0
    rcases h3 with h | h | h | h <;> rw [show fetch_usgs_data env cache =
        ingestLoop env cache 3 0 from rfl, h]
    · exact Or.inl rfl
    · exact Or.inr (Or.inl rfl)
    · exact Or.inr (Or.inr (Or.inl rfl))
    · exact Or.inr (Or.inr (Or.inr rfl))
  · intro env cache c0 c1 c2 h0 h1 h2
    unfold fetch_usgs_data
    rw [show (3 : Nat) = 2 + 1 from rfl, ingestLoop_succ, h0]
    dsimp only
    rw [if_neg (by omega : ¬(2 : Nat) = 0)]
    dsimp only
    rw [show (2 : Nat) = 1 + 1 from rfl, ingestLoop_succ, h1]
    dsimp only
    rw [if_neg one_ne_zero]
    dsimp only
    rw [show (1 : Nat) = 0 + 1 from rfl, ingestLoop_succ, h2]
    dsimp only
    rw [if_pos rfl]
    exact ⟨rfl, rfl⟩

/-- C6 (witness): the amended retry behaviour applied to a run whose first
attempt raises (a retry with delay 1 follows) and to a run in which all
three attempts raise (the cached fallback is returned). -/
theorem c6_retry_behaviour_witness :
    (2 ≤ (fetch_usgs_data ingestEnvOneMalformed []).attempts ∧
      (fetch_usgs_data ingestEnvOneMalformed []).delays.head? = some 1) ∧
    ((fetch_usgs_data ingestEnvAllRaised [("cached", 7)]).returned = [("cached", 7)] ∧
      (fetch_usgs_data ingestEnvAllRaised [("cached", 7)]).from_cache = true) :=
  ⟨c6_retry_behaviour.1 ingestEnvOneMalformed [] "malformed request" rfl,
   c6_retry_behaviour.2.2 ingestEnvAllRaised [("cached", 7)]
     "timeout" "timeout" "timeout" rfl rfl rfl⟩

/-- C7 (confirmed): `check_quality` assigns confidence `'low'` when the
fetch timestamp is more than 24 hours old, `'high'` when it is at most
24 hours old, and `'unknown'` when the timestamp is absent; the result
always carries the computed age in hours (`0` when the timestamp is
absent). -/
theorem c7_quality_staleness (now : Rat) (d : FetchResult) :
    (∀ t, d.fetch_timestamp = some t →
      (check_quality now d).age_hours = some ((now - t) / 60) ∧
      ((now - t) / 60 > 24 → (check_quality now d).confidence = some "low") ∧
      ((now - t) / 60 ≤ 24 → (check_quality now d).confidence = some "high")) ∧
    (d.fetch_timestamp = none →
      (check_quality now d).confidence = some "unknown" ∧
      (check_quality now d).age_hours = some 0) := by
  constructor
  · intro t ht
    refine ⟨?_, ?_, ?_⟩
    · simp [check_quality, ht]
    · intro hgt
      simp [check_quality, ht, hgt]
    · intro hle
      simp [check_quality, ht, not_lt.mpr hle]
  · intro h
    simp [check_quality, h]

theorem c7_age_stale : ((1500 : Rat) - 0) / 60 > 24 := by norm_num

theorem c7_age_fresh : ((100 : Rat) - 100) / 60 ≤ 24 := by norm_num

/-- C7 (witness): the staleness rule applied to a 25-hour-old result, a
fresh result, and a result without a timestamp. -/
theorem c7_quality_staleness_witness :
    (check_quality 1500 { fetch_timestamp := some 0 }).confidence = some "low" ∧
    (check_quality 100 { fetch_timestamp := some 100 }).confidence = some "high" ∧
    (check_quality 0 ({} : FetchResult)).confidence = some "unknown" :=
  ⟨((c7_quality_staleness 1500 { fetch_timestamp := some 0 }).1 0 rfl).2.1 c7_age_stale,
   ((c7_quality_staleness 100 { fetch_timestamp := some 100 }).1 100 rfl).2.2 c7_age_fresh,
   ((c7_quality_staleness 0 ({} : FetchResult)).2 rfl).1⟩

/-- C8 (confirmed): for every adapter and upstream behaviour, a successful
fetch leaves the corresponding source descriptor with `status = 'active'`
and a strictly positive reliability, and a failed fetch leaves it with
`status = 'error'` and reliability `0`. -/
theorem c8_status_reliability :
    (∀ env now s,
      ((fetch_usgs_earthquake_data env now s).1.success = true →
        (fetch_usgs_earthquake_data env now s).2.sources.usgs.status = "active" ∧
        0 < (fetch_usgs_earthquake_data env now s).2.sources.usgs.reliability) ∧
      ((fetch_usgs_earthquake_data env now s).1.success = false →
        (fetch_usgs_earthquake_data env now s).2.sources.usgs.status = "error" ∧
        (fetch_usgs_earthquake_data env now s).2.sources.usgs.reliability = 0)) ∧
    (∀ env now s,
      ((fetch_emsc_earthquake_data env now s).1.success = true →
        (fetch_emsc_earthquake_data env now s).2.sources.emsc.status = "active" ∧
        0 < (fetch_emsc_earthquake_data env now s).2.sources.emsc.reliability) ∧
      ((fetch_emsc_earthquake_data env now s).1.success = false →
        (fetch_emsc_earthquake_data env now s).2.sources.emsc.status = "error" ∧
        (fetch_emsc_earthquake_data env now s).2.sources.emsc.reliability = 0)) ∧
    (∀ env now s,
      ((fetch_noaa_space_weather_data env now s).1.success = true →
        (fetch_noaa_space_weather_data env now s).2.sources.noaa.status = "active" ∧
        0 < (fetch_noaa_space_weather_data env now s).2.sources.noaa.reliability) ∧
      ((fetch_noaa_space_weather_data env now s).1.success = false →
        (fetch_noaa_space_weather_data env now s).2.sources.noaa.status = "error" ∧
        (fetch_noaa_space_weather_data env now s).2.sources.noaa.reliability = 0)) ∧
    (∀ env now s,
      ((fetch_gfz_geomagnetic_data env now s).1.success = true →
        (fetch_gfz_geomagnetic_data env now s).2.sources.gfz.status = "active" ∧
        0 < (fetch_gfz_geomagnetic_data env now s).2.sources.gfz.reliability) ∧
      ((fetch_gfz_geomagnetic_data env now s).1.success = false →
        (fetch_gfz_geomagnetic_data env now s).2.sources.gfz.status = "error" ∧
        (fetch_gfz_geomagnetic_data env now s).2.sources.gfz.reliability = 0)) ∧
    (∀ env now s,
      ((fetch_nasa_space_weather_data env now s).1.success = true →
        (fetch_nasa_space_weather_data env now s).2.sources.nasa.status = "active" ∧
        0 < (fetch_nasa_space_weather_data env now s).2.sources.nasa.reliability) ∧
      ((fetch_nasa_space_weather_data env now s).1.success = false →
        (fetch_nasa_space_weather_data env now s).2.sources.nasa.status = "error" ∧
        (fetch_nasa_space_weather_data env now s).2.sources.nasa.reliability = 0)) := by
  refine ⟨?_, ?_, ?_, ?_, ?_⟩
  · intro env now s
    rcases env with e | v
    · exact ⟨fun h => Bool.noConfusion (show false = true from h), fun _ => ⟨rfl, rfl⟩⟩
    · exact ⟨fun _ => ⟨rfl, show (0:Rat) < 100 by norm_num⟩,
             fun h => Bool.noConfusion (show true = false from h)⟩
  · intro env now s
    rcases env with e | v
    · exact ⟨fun h => Bool.noConfusion (show false = true from h), fun _ => ⟨rfl, rfl⟩⟩
    · exact ⟨fun _ => ⟨rfl, show (0:Rat) < 95 by norm_num⟩,
             fun h => Bool.noConfusion (show true = false from h)⟩
  · intro env now s
    rcases env with ⟨oe, sw, gm, sf⟩
    cases oe with
    | some e =>
        exact ⟨fun h => Bool.noConfusion (show false = true from h), fun _ => ⟨rfl, rfl⟩⟩
    | none =>
        constructor
        · intro h
          simp only [fetch_noaa_space_weather_data, check_quality_success,
            decide_eq_true_eq] at h ⊢
          refine ⟨?_, ?_⟩
          · rw [if_pos h]
          · have hq : (0:Rat) < (([("solar_wind", sw), ("geomagnetic", gm),
                ("solar_flux", sf)].foldl noaaStep ([], 0)).2 : Nat) := by
              exact_mod_cast h
            exact mul_pos (div_pos hq (by norm_num)) (by norm_num)
        · intro h
          simp only [fetch_noaa_space_weather_data, check_quality_success,
            decide_eq_false_iff_not] at h ⊢
          have hk0 : ([("solar_wind", sw), ("geomagnetic", gm),
              ("solar_flux", sf)].foldl noaaStep ([], 0)).2 = 0 := by omega
          refine ⟨?_, ?_⟩
          · rw [if_neg h]
          · rw [hk0]
            norm_num
  · intro env now s
    rcases env with e | v
    · exact ⟨fun h => Bool.noConfusion (show false = true from h), fun _ => ⟨rfl, rfl⟩⟩
    · exact ⟨fun _ => ⟨rfl, show (0:Rat) < 85 by norm_num⟩,
             fun h => Bool.noConfusion (show true = false from h)⟩
  · intro env now s
    rcases env with ⟨r1, r2⟩
    unfold fetch_nasa_space_weather_data
    rcases r1 with e | ⟨ns1, rows1⟩
    · exact ⟨fun h => Bool.noConfusion (show false = true from h), fun _ => ⟨rfl, rfl⟩⟩
    · cases ns1
      · exact ⟨fun _ => ⟨rfl, show (0:Rat) < 88 by norm_num⟩,
          fun h => Bool.noConfusion
            (show true = false from (check_quality_success now _).symm.trans h)⟩
      · rcases r2 with e | ⟨ns2, rows2⟩
        · exact ⟨fun h => Bool.noConfusion (show false = true from h), fun _ => ⟨rfl, rfl⟩⟩
        · cases ns2
          · exact ⟨fun _ => ⟨rfl, show (0:Rat) < 88 by norm_num⟩,
              fun h => Bool.noConfusion
                (show true = false from (check_quality_success now _).symm.trans h)⟩
          · exact ⟨fun h => Bool.noConfusion (show false = true from h),
              fun _ => ⟨rfl, rfl⟩⟩

/-- C8 (witness): the status/reliability contract applied to a successful
USGS fetch. -/
theorem c8_status_reliability_witness :
    (fetch_usgs_earthquake_data (.ok []) 0 initState).2.sources.usgs.status = "active" ∧
    0 < (fetch_usgs_earthquake_data (.ok []) 0 initState).2.sources.usgs.reliability :=
  (c8_status_reliability.1 (.ok []) 0 initState).1 rfl

/-- C9 (confirmed): initialization establishes, and every adapter fetch,
the fallback merger and `update_all_sources` preserve, the invariant
that each descriptor's reliability lies in `[0, 100]`. -/
theorem c9_reliability_invariant :
    reliabilityOK initState.sources ∧
    (∀ env now s, reliabilityOK s.sources →
      reliabilityOK (fetch_usgs_earthquake_data env now s).2.sources) ∧
    (∀ env now s, reliabilityOK s.sources →
      reliabilityOK (fetch_emsc_earthquake_data env now s).2.sources) ∧
    (∀ env now s, reliabilityOK s.sources →
      reliabilityOK (fetch_noaa_space_weather_data env now s).2.sources) ∧
    (∀ env now s, reliabilityOK s.sources →
      reliabilityOK (fetch_gfz_geomagnetic_data env now s).2.sources) ∧
    (∀ env now s, reliabilityOK s.sources →
      reliabilityOK (fetch_nasa_space_weather_data env now s).2.sources) ∧
    (∀ env now s, reliabilityOK s.sources →
      reliabilityOK (fetch_space_weather_with_fallback env now s).2.sources) ∧
    (∀ env now s, reliabilityOK s.sources →
      reliabilityOK (update_all_sources env now s).2.sources) :=
  ⟨by norm_num [reliabilityOK, initState],
   usgs_preserves, emsc_preserves, noaa_preserves, gfz_preserves, nasa_preserves,
   sw_preserves, update_all_preserves⟩

/-- C9 (witness): the invariant propagated from the initial state through a
full refresh under the all-failing environment. -/
theorem c9_reliability_invariant_witness :
    reliabilityOK (update_all_sources envAllFail 0 initState).2.sources :=
  c9_reliability_invariant.2.2.2.2.2.2.2 envAllFail 0 initState
    c9_reliability_invariant.1

/-- C10 (confirmed): while `last_update` is still `None` the cache age is
reported as `None` (not `0`), and on the freshly initialized state the
cached-data route reports `has_cached_data = false` with an empty
`cached_sources` list, so a caller can distinguish "never refreshed"
from "refreshed just now". -/
theorem c10_unrefreshed_cache_query :
    (∀ now s, s.last_update = none →
      (get_cached_data now s).cache_age_minutes = none) ∧
    (∀ now, api_get_cached_data now initState =
      { has_cached_data := false, cache_age_minutes := none, cached_sources := [] }) := by
  constructor
  · intro now s h
    simp [get_cached_data, h]
  · intro now
    rfl

/-- C10 (witness): the age query on the initial state. -/
theorem c10_unrefreshed_cache_query_witness :
    (get_cached_data 0 initState).cache_age_minutes = none :=
  c10_unrefreshed_cache_query.1 0 initState rfl

end GeoEarth
